import Mathlib

/-!
Verification of the Freetrade CSV transaction parser
(`cgt_calc/parsers/freetrade.py`).

The Python module is shallowly embedded below:

* `Decimal` values are modelled as exact rationals (`ℚ`); `Decimal(str)`
  parsing is `pyDecimal`, covering the finite decimal numeric strings
  (sign, digits, fraction, exponent, underscores and surrounding
  whitespace removed).  Non-finite literals (`NaN`, `Infinity`) are
  outside the model.
* Python exceptions become the `PyError` error type of an `Except`
  computation; the distinguished `ParsingError` of the repository is one
  of its constructors.
* `datetime.strptime` for the single fixed format
  `%Y-%m-%dT%H:%M:%S.%f%z` is modelled by `strptimeDate`, following the
  CPython `_strptime` regular expressions for each directive and the
  range checks of the `datetime` constructor.
* The input file is modelled as the list of records produced by
  `csv.reader` (`List (List String)`), wrapped in `Option` so that a
  missing file is `none`.
-/

deriving instance DecidableEq for Except

/-- Modelled from the spec: the closed enumeration of action types
used by the parser (the `ActionType` of `cgt_calc.model`, whose source
is not part of this excerpt): BUY, SELL, DIVIDEND, TRANSFER, INTEREST. -/
inductive ActionType where
  | BUY
  | SELL
  | DIVIDEND
  | TRANSFER
  | INTEREST
deriving DecidableEq, Repr

/-- Python `str(action)` for an `ActionType` enum member (used in
f-strings of the source). -/
def actionToString : ActionType → String
  | .BUY => "ActionType.BUY"
  | .SELL => "ActionType.SELL"
  | .DIVIDEND => "ActionType.DIVIDEND"
  | .TRANSFER => "ActionType.TRANSFER"
  | .INTEREST => "ActionType.INTEREST"

/-- The exception kinds the embedded code can raise.  `ParsingError` is
the repository's distinguished error (modelled from the spec: it carries
the source-file identifier and a human-readable message); the others are
Python built-in / library exceptions. -/
inductive PyError where
  | ParsingError (file : String) (msg : String)
  | KeyError (key : String)
  | ValueError (msg : String)
  | InvalidOperation (msg : String)
  | DivisionByZero
  | IndexError (msg : String)
deriving DecidableEq, Repr

/-- A calendar date, as returned by Python `datetime.date`. -/
structure Date where
  year : ℕ
  month : ℕ
  day : ℕ
deriving DecidableEq, Repr

/-- Python `date` ordering (`a < b`), lexicographic on
(year, month, day). -/
def dateBefore (a b : Date) : Prop :=
  a.year < b.year ∨ (a.year = b.year ∧
    (a.month < b.month ∨ (a.month = b.month ∧ a.day < b.day)))

instance (a b : Date) : Decidable (dateBefore a b) := by
  unfold dateBefore
  exact inferInstance

/-- Modelled from the spec: the normalized transaction record
(`BrokerTransaction` of `cgt_calc.model`, whose source is not part of
this excerpt): date, action, optional symbol, description, optional
quantity, optional price, fees, amount, currency, broker name. -/
structure BrokerTransaction where
  date : Date
  action : ActionType
  symbol : Option String
  description : String
  quantity : Option ℚ
  price : Option ℚ
  fees : ℚ
  amount : ℚ
  currency : String
  broker : String
deriving DecidableEq, Repr

/-! ### Decimal numeric strings (`decimal.Decimal(str)`) -/

/-- Numeric value of a decimal digit character. -/
def digitVal (c : Char) : ℕ := c.toNat - '0'.toNat

/-- Value of a list of decimal digit characters, most significant
first. -/
def natOfDigits (cs : List Char) : ℕ :=
  cs.foldl (fun acc c => 10 * acc + digitVal c) 0

/-- The rational `m * 10 ^ e`, built with `mkRat` so that it evaluates
by kernel reduction. -/
def timesPow10 (m : ℤ) (e : ℤ) : ℚ :=
  match e with
  | .ofNat n => mkRat (m * ((10 : ℤ) ^ n)) 1
  | .negSucc n => mkRat m (10 ^ (n + 1))

/-- Strip leading and trailing whitespace (Python `str.strip`,
restricted to ASCII whitespace). -/
def stripWS (cs : List Char) : List Char :=
  ((cs.dropWhile Char.isWhitespace).reverse.dropWhile Char.isWhitespace).reverse

/-- Parse an optional sign; returns the multiplier and the rest. -/
def parseSign : List Char → ℤ × List Char
  | '+' :: rest => (1, rest)
  | '-' :: rest => (-1, rest)
  | cs => (1, cs)

/-- Parse the optional exponent part (`[eE][+-]?digits`); the whole
remaining input must be consumed.  Returns the signed exponent. -/
def parseExponent : List Char → Option ℤ
  | [] => some 0
  | c :: rest =>
    if c = 'e' ∨ c = 'E' then
      let (s, rest1) : ℤ × List Char :=
        match rest with
        | '+' :: r => (1, r)
        | '-' :: r => (-1, r)
        | r => (1, r)
      let ds := rest1.takeWhile Char.isDigit
      let rest2 := rest1.dropWhile Char.isDigit
      if ds = [] ∨ rest2 ≠ [] then none
      else some (s * (natOfDigits ds : ℤ))
    else none

/-- The finite fragment of the decimal numeric string grammar:
`sign? (digits ['.' digits*] | '.' digits+) ([eE] sign? digits+)?`.
Returns the exact rational value. -/
def decNumParse (cs : List Char) : Option ℚ :=
  let (sgn, cs1) := parseSign cs
  let intPart := cs1.takeWhile Char.isDigit
  let cs2 := cs1.dropWhile Char.isDigit
  let (fracPart, cs3) :=
    match cs2 with
    | '.' :: rest => (rest.takeWhile Char.isDigit, rest.dropWhile Char.isDigit)
    | _ => ([], cs2)
  -- a bare "." (or a sign alone) is not a number; any stray
  -- characters are rejected by parseExponent
  if intPart = [] ∧ fracPart = [] then none
  else
    match parseExponent cs3 with
    | none => none
    | some e =>
      let mantissa : ℤ := sgn * (natOfDigits (intPart ++ fracPart) : ℤ)
      some (timesPow10 mantissa (e - (fracPart.length : ℤ)))

/-- `decimal.Decimal(s)` on the finite fragment: strip surrounding
whitespace, delete underscores, then parse the numeric string; a string
outside the grammar raises `InvalidOperation`. -/
def pyDecimal (s : String) : Except PyError ℚ :=
  match decNumParse ((stripWS s.data).filter (fun c => c ≠ '_')) with
  | some q => .ok q
  | none => .error (.InvalidOperation ("invalid decimal literal: " ++ s))

/-! ### `datetime.strptime` for format `%Y-%m-%dT%H:%M:%S.%f%z` -/

/-- Take exactly `n` decimal digits, returning their value. -/
def takeDigitsN : ℕ → ℕ → List Char → Option (ℕ × List Char)
  | 0, acc, cs => some (acc, cs)
  | n + 1, acc, c :: rest =>
    if c.isDigit then takeDigitsN n (10 * acc + digitVal c) rest else none
  | _ + 1, _, [] => none

/-- A one-or-two digit field with an inclusive value range, following
the CPython `_strptime` regular expressions (`%m`, `%d`, `%H`, `%M`,
`%S`): two digits are taken when available, and the value must lie in
`[lo, hi]`. -/
def take1or2 (lo hi : ℕ) : List Char → Option (ℕ × List Char)
  | c1 :: c2 :: rest =>
    if c1.isDigit then
      if c2.isDigit then
        let v := 10 * digitVal c1 + digitVal c2
        if lo ≤ v ∧ v ≤ hi then some (v, rest) else none
      else
        let v := digitVal c1
        if lo ≤ v ∧ v ≤ hi then some (v, c2 :: rest) else none
    else none
  | [c1] =>
    if c1.isDigit then
      let v := digitVal c1
      if lo ≤ v ∧ v ≤ hi then some (v, []) else none
    else none
  | [] => none

/-- Expect one literal character. -/
def expectChar (c : Char) : List Char → Option (List Char)
  | c1 :: rest => if c1 = c then some rest else none
  | [] => none

/-- The literal `T` of the format (strptime matching is
case-insensitive). -/
def expectT : List Char → Option (List Char)
  | c1 :: rest => if c1 = 'T' ∨ c1 = 't' then some rest else none
  | [] => none

/-- `%f`: one to six digits (microseconds); a seventh digit makes the
whole match fail because nothing in `%z` can absorb it. -/
def takeMicro (cs : List Char) : Option (List Char) :=
  let ds := cs.takeWhile Char.isDigit
  if 1 ≤ ds.length ∧ ds.length ≤ 6 then some (cs.dropWhile Char.isDigit)
  else none

/-- `%z` at the end of the input: `[+-]HH[:]MM([:]SS(.ffffff)?)?` with
colon use consistent, minutes/seconds at most 59, and the total offset
strictly less than 24 hours (the `datetime.timezone` bound).  Everything
must be consumed. -/
def parseTZ (cs : List Char) : Option Unit := do
  let rest ← match cs with
    | '+' :: r => some r
    | '-' :: r => some r
    | _ => none
  let (hh, r1) ← takeDigitsN 2 0 rest
  let (colon1, r2) : Bool × List Char :=
    match r1 with
    | ':' :: r => (true, r)
    | _ => (false, r1)
  let (mm, r3) ← takeDigitsN 2 0 r2
  if 59 < mm then none
  else
    match r3 with
    | [] =>
      if hh * 3600 + mm * 60 < 86400 then some () else none
    | r3' => do
      let (colon2, r4) : Bool × List Char :=
        match r3' with
        | ':' :: r => (true, r)
        | _ => (false, r3')
      if colon2 ≠ colon1 then none
      else do
        let (ss, r5) ← takeDigitsN 2 0 r4
        if 59 < ss then none
        else do
          let r6 ← match r5 with
            | [] => some ([] : List Char)
            | '.' :: fr =>
              let ds := fr.takeWhile Char.isDigit
              if 1 ≤ ds.length ∧ ds.length ≤ 6 ∧ fr.dropWhile Char.isDigit = [] then
                some ([] : List Char)
              else none
            | _ => none
          if r6 = [] ∧ hh * 3600 + mm * 60 + ss < 86400 then some () else none

/-- Whether `y` is a Gregorian leap year. -/
def isLeap (y : ℕ) : Bool := y % 4 = 0 ∧ (y % 100 ≠ 0 ∨ y % 400 = 0)

/-- Days in a month, as validated by the `datetime` constructor. -/
def daysInMonth (y m : ℕ) : ℕ :=
  if m = 2 then (if isLeap y then 29 else 28)
  else if m = 4 ∨ m = 6 ∨ m = 9 ∨ m = 11 then 30
  else 31

/-- `datetime.strptime(s, "%Y-%m-%dT%H:%M:%S.%f%z").date()`: match the
format against the whole string, then apply the `datetime` constructor's
range checks; returns the wall-clock date (the offset never shifts the
stored fields). -/
def strptimeDate (cs : List Char) : Option Date := do
  let (y, r) ← takeDigitsN 4 0 cs
  let r ← expectChar '-' r
  let (mo, r) ← take1or2 1 12 r
  let r ← expectChar '-' r
  let (d, r) ← take1or2 1 31 r
  let r ← expectT r
  let (_h, r) ← take1or2 0 23 r
  let r ← expectChar ':' r
  let (_mi, r) ← take1or2 0 59 r
  let r ← expectChar ':' r
  -- the %S regex admits leap seconds 60 and 61, which the datetime
  -- constructor then rejects
  let (s, r) ← take1or2 0 61 r
  let r ← expectChar '.' r
  let r ← takeMicro r
  let _ ← parseTZ r
  if 1 ≤ y ∧ d ≤ daysInMonth y mo ∧ s ≤ 59 then some ⟨y, mo, d⟩ else none

/-- Replace every occurrence of `'Z'` by `"+00:00"`
(`iso_date.replace("Z", "+00:00")`). -/
def replaceZ : List Char → List Char
  | [] => []
  | c :: rest =>
    if c = 'Z' then '+' :: '0' :: '0' :: ':' :: '0' :: '0' :: replaceZ rest
    else c :: replaceZ rest

/-- `parse_date` of the source: replace `Z` by `+00:00`, then parse with
`datetime.strptime` under the fixed format and keep the date part.  A
string the format rejects raises `ValueError` (the exception of
`strptime` / the `datetime` constructor, propagated unwrapped). -/
def parse_date (iso_date : String) : Except PyError Date :=
  match strptimeDate (replaceZ iso_date.data) with
  | some d => .ok d
  | none =>
    .error (.ValueError
      ("time data " ++ iso_date ++ " does not match format %Y-%m-%dT%H:%M:%S.%f%z"))

example : pyDecimal "100.5" = .ok (mkRat 201 2) := rfl
example : pyDecimal " -3" = .ok (-3 : ℚ) := rfl
example : pyDecimal "1e2" = .ok (100 : ℚ) := rfl
example : pyDecimal "2.5e-1" = .ok (mkRat 1 4) := rfl
example : pyDecimal "" = .error (.InvalidOperation "invalid decimal literal: ") := rfl
example : pyDecimal "1." = .ok (1 : ℚ) := rfl
example : pyDecimal ".5" = .ok (mkRat 1 2) := rfl
example : pyDecimal "abc" = .error (.InvalidOperation "invalid decimal literal: abc") := rfl
example : parse_date "2024-01-02T03:04:05.123Z" = .ok ⟨2024, 1, 2⟩ := rfl
example : parse_date "2024-01-02T03:04:05.123+01:00" = .ok ⟨2024, 1, 2⟩ := rfl
example : parse_date "2024-01-02" =
    .error (.ValueError "time data 2024-01-02 does not match format %Y-%m-%dT%H:%M:%S.%f%z") := rfl
example : parse_date "2024-02-30T03:04:05.123Z" =
    .error (.ValueError "time data 2024-02-30T03:04:05.123Z does not match format %Y-%m-%dT%H:%M:%S.%f%z") := rfl
example : parse_date "2024-01-02T03:04:05Z" =
    .error (.ValueError "time data 2024-01-02T03:04:05Z does not match format %Y-%m-%dT%H:%M:%S.%f%z") := rfl

/-! ### The Freetrade schema and row dictionary -/

/-- The fixed 28-column allow-list `COLUMNS` of the source. -/
def COLUMNS : List String := [
  "Title",
  "Type",
  "Timestamp",
  "Account Currency",
  "Total Amount",
  "Buy / Sell",
  "Ticker",
  "ISIN",
  "Price per Share in Account Currency",
  "Stamp Duty",
  "Quantity",
  "Venue",
  "Order ID",
  "Order Type",
  "Instrument Currency",
  "Total Shares Amount",
  "Price per Share",
  "FX Rate",
  "Base FX Rate",
  "FX Fee (BPS)",
  "FX Fee Amount",
  "Dividend Ex Date",
  "Dividend Pay Date",
  "Dividend Eligible Quantity",
  "Dividend Amount Per Share",
  "Dividend Gross Distribution Amount",
  "Dividend Net Distribution Amount",
  "Dividend Withheld Tax Percentage",
  "Dividend Withheld Tax Amount"]

/-- `dict(zip(header, row_raw))` of the source: the association list of
header names and cell values (`zip` truncates at the shorter list; on
duplicate keys the later pair wins, as in a Python dict). -/
def rowOf (header row_raw : List String) : List (String × String) :=
  header.zip row_raw

/-- Last-binding lookup, matching Python dict construction from pairs. -/
def lookupLast (pairs : List (String × String)) (k : String) : Option String :=
  pairs.foldl (fun acc p => if p.1 = k then some p.2 else acc) none

/-- `row[k]`: a missing key raises `KeyError`. -/
def dictGet (pairs : List (String × String)) (k : String) : Except PyError String :=
  match lookupLast pairs k with
  | some v => .ok v
  | none => .error (.KeyError k)

/-! ### `action_from_str` -/

/-- `action_from_str` of the source: classify the raw type code and
buy/sell flag into an `ActionType`, raising `ParsingError` on an unknown
buy/sell flag or type code. -/
def action_from_str (type : String) (buy_sell : String) (filename : String) :
    Except PyError ActionType :=
  if type = "INTEREST_FROM_CASH" then .ok .INTEREST
  else if type = "DIVIDEND" then .ok .DIVIDEND
  else if type = "TOP_UP" ∨ type = "WITHDRAWAL" then .ok .TRANSFER
  else if type = "ORDER" ∨ type = "FREESHARE_ORDER" then
    if buy_sell = "BUY" then .ok .BUY
    else if buy_sell = "SELL" then .ok .SELL
    else .error (.ParsingError filename ("Unknown buy_sell: " ++ buy_sell))
  else .error (.ParsingError filename ("Unknown type: " ++ type))

/-! ### `FreetradeTransaction.__init__` -/

/-- `Decimal` division: a zero divisor raises `DivisionByZero`,
otherwise the quotient is exact in this model. -/
def pyDiv (a b : ℚ) : Except PyError ℚ :=
  if b = 0 then .error .DivisionByZero else .ok (a / b)

/-- The `Convert all numbers in GBP using Freetrade rates` block of
`FreetradeTransaction.__init__`: for each action kind, read quantity,
price and amount from the row and normalize the currency to GBP;
returns `(quantity, price, amount, currency)`. -/
def compute_numbers (row : List (String × String)) (action : ActionType)
    (filename : String) : Except PyError (Option ℚ × Option ℚ × ℚ × String) := do
  if action = .SELL ∨ action = .BUY then do
    let qs ← dictGet row "Quantity"
    let quantity ← pyDecimal qs
    let ps ← dictGet row "Price per Share"
    let price ← pyDecimal ps
    let amts ← dictGet row "Total Shares Amount"
    let amount ← pyDecimal amts
    let currency ← dictGet row "Instrument Currency"
    if currency ≠ "GBP" then do
      let fxs ← dictGet row "FX Rate"
      let fx_rate ← pyDecimal fxs
      let price ← pyDiv price fx_rate
      let amount ← pyDiv amount fx_rate
      pure (some quantity, some price, amount, "GBP")
    else
      pure (some quantity, some price, amount, "GBP")
  else if action = .DIVIDEND then do
    -- Total amount before US tax withholding
    let gs ← dictGet row "Dividend Gross Distribution Amount"
    let amount ← pyDecimal gs
    let currency ← dictGet row "Instrument Currency"
    if currency ≠ "GBP" then do
      -- FX Rate is not defined for dividends, so the base one is used
      let bfs ← dictGet row "Base FX Rate"
      let base_fx ← pyDecimal bfs
      let amount ← pyDiv amount base_fx
      pure ((none : Option ℚ), (none : Option ℚ), amount, "GBP")
    else
      pure ((none : Option ℚ), (none : Option ℚ), amount, "GBP")
  else if action = .TRANSFER ∨ action = .INTEREST then do
    let ts ← dictGet row "Total Amount"
    let amount ← pyDecimal ts
    pure ((none : Option ℚ), (none : Option ℚ), amount, "GBP")
  else
    throw (.ParsingError filename
      ("Numbers parsing unimplemented for action: " ++ actionToString action))

/-- A Python `if cond: raise e` statement as an `Except` step. -/
def checkE (cond : Prop) [Decidable cond] (e : PyError) : Except PyError Unit :=
  if cond then .error e else .ok ()

/-- Everything `FreetradeTransaction.__init__` does before the
`super().__init__` call: classify the action, take the symbol from the
Ticker cell, check the symbol requirement and the GBP account
constraint, compute the numbers, then apply the FREESHARE_ORDER zeroing
and the sign convention.  Returns
`(action, symbol, quantity, price, amount, currency)`.
(In the source, `amount` is assigned in every branch, so the
`amount is not None` guard before the negation is vacuous.) -/
def freetrade_predate (header row_raw : List String) (filename : String) :
    Except PyError (ActionType × Option String × Option ℚ × Option ℚ × ℚ × String) := do
  let row := rowOf header row_raw
  let type ← dictGet row "Type"
  let buy_sell ← dictGet row "Buy / Sell"
  let action ← action_from_str type buy_sell filename
  let ticker ← dictGet row "Ticker"
  let symbol : Option String := if ticker = "" then none else some ticker
  let _ ← checkE (symbol = none ∧ ¬(action = .TRANSFER ∨ action = .INTEREST))
    (.ParsingError filename ("No symbol for action: " ++ actionToString action))
  -- I believe GIA account at Freetrade can be only in GBP
  let acct ← dictGet row "Account Currency"
  let _ ← checkE (acct ≠ "GBP")
    (.ParsingError filename "Non-GBP accounts are unsupported")
  let (quantity, price, amount, currency) ← compute_numbers row action filename
  let price := if type = "FREESHARE_ORDER" then some (0 : ℚ) else price
  let amount := if type = "FREESHARE_ORDER" then (0 : ℚ) else amount
  let amount := if action = .BUY ∨ type = "WITHDRAWAL" then -amount else amount
  pure (action, symbol, quantity, price, amount, currency)

/-- `FreetradeTransaction(header, row_raw, filename)`: the pre-date part
above followed by the argument evaluation of the `super().__init__`
call, in source order: `parse_date(row["Timestamp"])`, then the
description built from `row["Title"]` and the action. -/
def freetradeTransaction (header row_raw : List String) (filename : String) :
    Except PyError BrokerTransaction := do
  let (action, symbol, quantity, price, amount, currency) ←
    freetrade_predate header row_raw filename
  let row := rowOf header row_raw
  let ts ← dictGet row "Timestamp"
  let date ← parse_date ts
  let title ← dictGet row "Title"
  pure {
    date := date
    action := action
    symbol := symbol
    description := title ++ " " ++ actionToString action
    quantity := quantity
    price := price
    fees := 0  -- not implemented
    amount := amount
    currency := currency
    broker := "Freetrade" }

/-! ### `validate_header` -/

/-- `validate_header` of the source: every header entry must belong to
`COLUMNS`; the first unknown column raises `ParsingError`. -/
def validate_header : List String → String → Except PyError Unit
  | [], _ => .ok ()
  | actual :: rest, filename =>
    if actual ∈ COLUMNS then validate_header rest filename
    else .error (.ParsingError filename ("Unknown column " ++ actual))

/-! ### Stock splits -/

/-- `StockSplit` of the source. -/
structure StockSplit where
  symbol : String
  date : Date
  factor : ℕ
deriving DecidableEq, Repr

/-- `STOCK_SPLIT_INFO` of the source. -/
def STOCK_SPLIT_INFO : List StockSplit := [
  ⟨"GOOGL", ⟨2022, 7, 18⟩, 20⟩,
  ⟨"TSLA", ⟨2022, 8, 25⟩, 3⟩,
  ⟨"NDAQ", ⟨2022, 8, 29⟩, 3⟩]

/-- Python truthiness of an optional Decimal (`if transaction.quantity:`):
`None` and zero are falsy. -/
def pyTruthy : Option ℚ → Bool
  | none => false
  | some q => decide (q ≠ 0)

/-- The guard of `_handle_stock_split`: the split's symbol matches, the
action is SELL, and the transaction date is strictly after the split
date. -/
def splitApplies (t : BrokerTransaction) (s : StockSplit) : Prop :=
  t.symbol = some s.symbol ∧ t.action = .SELL ∧ dateBefore s.date t.date

instance (t : BrokerTransaction) (s : StockSplit) : Decidable (splitApplies t s) := by
  unfold splitApplies
  exact inferInstance

/-- `_handle_stock_split` of the source: pretend there was no split.
For each matching split record divide the (truthy) quantity by the
factor and multiply the (truthy) price by it. -/
def handleStockSplit (t : BrokerTransaction) : BrokerTransaction :=
  STOCK_SPLIT_INFO.foldl
    (fun tr split =>
      if splitApplies tr split then
        { tr with
          quantity :=
            if pyTruthy tr.quantity then
              tr.quantity.map (fun q => q / (split.factor : ℚ))
            else tr.quantity
          price :=
            if pyTruthy tr.price then
              tr.price.map (fun p => p * (split.factor : ℚ))
            else tr.price }
      else tr)
    t

/-! ### `read_freetrade_transactions` -/

/-- The list comprehension of the source
(`[_handle_stock_split(FreetradeTransaction(header, row, str(file))) for
row in lines]`): build each row's transaction left to right, applying
the split adjustment; the first exception propagates. -/
def parseRows (header : List String) (transactions_file : String) :
    List (List String) → Except PyError (List BrokerTransaction)
  | [] => .ok []
  | row :: rest => do
    let t ← (freetradeTransaction header row transactions_file).map handleStockSplit
    let ts ← parseRows header transactions_file rest
    pure (t :: ts)

/-- `read_freetrade_transactions` of the source, over the `csv.reader`
record list (`none` models a file that fails to open with
`FileNotFoundError`).  Returns the transaction list together with the
printed warnings; every other exception propagates. -/
def read_freetrade_transactions (contents : Option (List (List String)))
    (transactions_file : String) :
    Except PyError (List BrokerTransaction × List String) :=
  match contents with
  | none =>
    -- the sole caught exception: FileNotFoundError from open()
    .ok ([], ["WARNING: Couldn't locate Freetrade transactions file(" ++
      transactions_file ++ ")"])
  | some lines =>
    match lines with
    | [] => .error (.IndexError "list index out of range")  -- lines[0]
    | header :: rest => do
      let _ ← validate_header header transactions_file
      -- HACK of the source: reverse transactions to avoid negative
      -- balance issues
      let transactions ← parseRows header transactions_file rest.reverse
      let warns :=
        if transactions.length = 0 then
          ["WARNING: no transactions detected in file " ++ transactions_file]
        else []
      pure (transactions, warns)

/-! ### Reduction lemmas for the `Except` monad -/

@[simp] theorem exc_ok_bind {α β : Type} (a : α) (f : α → Except PyError β) :
    ((Except.ok a : Except PyError α) >>= f) = f a := rfl

@[simp] theorem exc_err_bind {α β : Type} (e : PyError) (f : α → Except PyError β) :
    ((Except.error e : Except PyError α) >>= f) = Except.error e := rfl

@[simp] theorem exc_pure {α : Type} (a : α) :
    (pure a : Except PyError α) = Except.ok a := rfl

@[simp] theorem exc_throw {α : Type} (e : PyError) :
    (throw e : Except PyError α) = Except.error e := rfl

theorem exc_bind_ok {α β : Type} {x : Except PyError α} {f : α → Except PyError β}
    {b : β} (h : (x >>= f) = Except.ok b) :
    ∃ a, x = Except.ok a ∧ f a = Except.ok b := by
  cases x with
  | error e => exact absurd h (by simp)
  | ok a => exact ⟨a, rfl, h⟩

/-! ### Inversion lemmas for the row constructor -/

theorem compute_numbers_buy_sell_elim {row : List (String × String)}
    {action : ActionType} {filename : String} {q p : Option ℚ} {a : ℚ} {c : String}
    (hact : action = .SELL ∨ action = .BUY)
    (h : compute_numbers row action filename = .ok (q, p, a, c)) :
    ∃ qs q0 ps p0 amts a0 cur,
      dictGet row "Quantity" = .ok qs ∧ pyDecimal qs = .ok q0 ∧
      dictGet row "Price per Share" = .ok ps ∧ pyDecimal ps = .ok p0 ∧
      dictGet row "Total Shares Amount" = .ok amts ∧ pyDecimal amts = .ok a0 ∧
      dictGet row "Instrument Currency" = .ok cur ∧
      q = some q0 ∧ c = "GBP" ∧
      ((cur = "GBP" ∧ p = some p0 ∧ a = a0) ∨
       (cur ≠ "GBP" ∧ ∃ fxs fx, dictGet row "FX Rate" = .ok fxs ∧
         pyDecimal fxs = .ok fx ∧ fx ≠ 0 ∧ p = some (p0 / fx) ∧ a = a0 / fx)) := by
  unfold compute_numbers at h
  rw [if_pos hact] at h
  obtain ⟨qs, hqs, h⟩ := exc_bind_ok h
  obtain ⟨q0, hq0, h⟩ := exc_bind_ok h
  obtain ⟨ps, hps, h⟩ := exc_bind_ok h
  obtain ⟨p0, hp0, h⟩ := exc_bind_ok h
  obtain ⟨amts, hamts, h⟩ := exc_bind_ok h
  obtain ⟨a0, ha0, h⟩ := exc_bind_ok h
  obtain ⟨cur, hcur, h⟩ := exc_bind_ok h
  refine ⟨qs, q0, ps, p0, amts, a0, cur, hqs, hq0, hps, hp0, hamts, ha0, hcur, ?_⟩
  by_cases hgbp : cur = "GBP"
  · rw [if_neg (by simpa using hgbp)] at h
    simp only [exc_pure, Except.ok.injEq, Prod.mk.injEq] at h
    obtain ⟨h1, h2, h3, h4⟩ := h
    exact ⟨h1.symm, h4.symm, Or.inl ⟨hgbp, h2.symm, h3.symm⟩⟩
  · rw [if_pos (by simpa using hgbp)] at h
    obtain ⟨fxs, hfxs, h⟩ := exc_bind_ok h
    obtain ⟨fx, hfx, h⟩ := exc_bind_ok h
    obtain ⟨pq, hpq, h⟩ := exc_bind_ok h
    obtain ⟨aq, haq, h⟩ := exc_bind_ok h
    simp only [exc_pure, Except.ok.injEq, Prod.mk.injEq] at h
    obtain ⟨h1, h2, h3, h4⟩ := h
    unfold pyDiv at hpq haq
    by_cases hz : fx = 0
    · rw [if_pos hz] at hpq
      exact absurd hpq (by simp)
    · rw [if_neg hz] at hpq haq
      simp only [Except.ok.injEq] at hpq haq
      exact ⟨h1.symm, h4.symm, Or.inr ⟨hgbp, fxs, fx, hfxs, hfx, hz,
        by rw [← h2, ← hpq], by rw [← h3, ← haq]⟩⟩

theorem compute_numbers_transfer_elim {row : List (String × String)}
    {action : ActionType} {filename : String} {q p : Option ℚ} {a : ℚ} {c : String}
    (hact : action = .TRANSFER ∨ action = .INTEREST)
    (h : compute_numbers row action filename = .ok (q, p, a, c)) :
    ∃ ts, dictGet row "Total Amount" = .ok ts ∧ pyDecimal ts = .ok a ∧
      q = none ∧ p = none ∧ c = "GBP" := by
  unfold compute_numbers at h
  rw [if_neg (by rcases hact with h | h <;> simp [h])] at h
  rw [if_neg (by rcases hact with h | h <;> simp [h])] at h
  rw [if_pos hact] at h
  obtain ⟨ts, hts, h⟩ := exc_bind_ok h
  obtain ⟨a0, ha0, h⟩ := exc_bind_ok h
  simp only [exc_pure, Except.ok.injEq, Prod.mk.injEq] at h
  obtain ⟨h1, h2, h3, h4⟩ := h
  exact ⟨ts, hts, h3 ▸ ha0, h1.symm, h2.symm, h4.symm⟩

theorem checkE_ok_elim {cond : Prop} [Decidable cond] {e : PyError} {u : Unit}
    (h : checkE cond e = .ok u) : ¬cond := by
  unfold checkE at h
  split at h
  · exact absurd h (by simp)
  · next hc => exact hc

theorem freetrade_predate_elim {header row_raw : List String} {filename : String}
    {action : ActionType} {symbol : Option String} {quantity price : Option ℚ}
    {amount : ℚ} {currency : String}
    (h : freetrade_predate header row_raw filename =
      .ok (action, symbol, quantity, price, amount, currency)) :
    ∃ type buy_sell ticker q0 p0 a0 c0,
      dictGet (rowOf header row_raw) "Type" = .ok type ∧
      dictGet (rowOf header row_raw) "Buy / Sell" = .ok buy_sell ∧
      action_from_str type buy_sell filename = .ok action ∧
      dictGet (rowOf header row_raw) "Ticker" = .ok ticker ∧
      symbol = (if ticker = "" then none else some ticker) ∧
      dictGet (rowOf header row_raw) "Account Currency" = .ok "GBP" ∧
      compute_numbers (rowOf header row_raw) action filename = .ok (q0, p0, a0, c0) ∧
      quantity = q0 ∧
      price = (if type = "FREESHARE_ORDER" then some 0 else p0) ∧
      amount = (if action = .BUY ∨ type = "WITHDRAWAL" then
                  -(if type = "FREESHARE_ORDER" then 0 else a0)
                else (if type = "FREESHARE_ORDER" then 0 else a0)) ∧
      currency = c0 := by
  unfold freetrade_predate at h
  obtain ⟨type, htype, h⟩ := exc_bind_ok h
  obtain ⟨buy_sell, hbs, h⟩ := exc_bind_ok h
  obtain ⟨action0, hact, h⟩ := exc_bind_ok h
  obtain ⟨ticker, htick, h⟩ := exc_bind_ok h
  obtain ⟨u1, hchk1, h⟩ := exc_bind_ok h
  obtain ⟨acct, hacct, h⟩ := exc_bind_ok h
  obtain ⟨u2, hchk2, h⟩ := exc_bind_ok h
  obtain ⟨nums, hnums, h⟩ := exc_bind_ok h
  obtain ⟨q0, p0, a0, c0⟩ := nums
  simp only [exc_pure, Except.ok.injEq, Prod.mk.injEq] at h
  obtain ⟨h1, h2, h3, h4, h5, h6⟩ := h
  have hacct2 : acct = "GBP" := not_not.mp (checkE_ok_elim hchk2)
  subst hacct2
  subst h1
  exact ⟨type, buy_sell, ticker, q0, p0, a0, c0, htype, hbs, hact, htick,
    h2.symm, hacct, hnums, h3.symm, h4.symm, h5.symm, h6.symm⟩

theorem freetradeTransaction_elim {header row_raw : List String} {filename : String}
    {t : BrokerTransaction}
    (h : freetradeTransaction header row_raw filename = .ok t) :
    ∃ action symbol quantity price amount currency ts date title,
      freetrade_predate header row_raw filename =
        .ok (action, symbol, quantity, price, amount, currency) ∧
      dictGet (rowOf header row_raw) "Timestamp" = .ok ts ∧
      parse_date ts = .ok date ∧
      dictGet (rowOf header row_raw) "Title" = .ok title ∧
      t = { date := date, action := action, symbol := symbol,
            description := title ++ " " ++ actionToString action,
            quantity := quantity, price := price, fees := 0,
            amount := amount, currency := currency, broker := "Freetrade" } := by
  unfold freetradeTransaction at h
  obtain ⟨pre, hpre, h⟩ := exc_bind_ok h
  obtain ⟨action, symbol, quantity, price, amount, currency⟩ := pre
  simp only [] at h
  obtain ⟨ts, hts, h⟩ := exc_bind_ok h
  obtain ⟨date, hdate, h⟩ := exc_bind_ok h
  obtain ⟨title, htitle, h⟩ := exc_bind_ok h
  simp only [exc_pure, Except.ok.injEq] at h
  exact ⟨action, symbol, quantity, price, amount, currency, ts, date, title,
    hpre, hts, hdate, htitle, h.symm⟩

/-! ### Evaluation lemmas for `action_from_str` -/

theorem action_from_str_topup (bs f : String) :
    action_from_str "TOP_UP" bs f = .ok .TRANSFER := by
  unfold action_from_str
  rw [if_neg (by decide), if_neg (by decide), if_pos (by decide)]

theorem action_from_str_withdrawal (bs f : String) :
    action_from_str "WITHDRAWAL" bs f = .ok .TRANSFER := by
  unfold action_from_str
  rw [if_neg (by decide), if_neg (by decide), if_pos (by decide)]

theorem action_from_str_interest (bs f : String) :
    action_from_str "INTEREST_FROM_CASH" bs f = .ok .INTEREST := by
  unfold action_from_str
  rw [if_pos (by decide)]

theorem action_from_str_order_elim {bs f : String} {a : ActionType}
    (h : action_from_str "ORDER" bs f = .ok a) :
    (bs = "BUY" ∧ a = .BUY) ∨ (bs = "SELL" ∧ a = .SELL) := by
  unfold action_from_str at h
  rw [if_neg (by decide), if_neg (by decide), if_neg (by decide),
    if_pos (by decide)] at h
  by_cases hb : bs = "BUY"
  · rw [if_pos hb] at h
    exact Or.inl ⟨hb, (Except.ok.inj h).symm⟩
  · rw [if_neg hb] at h
    by_cases hs : bs = "SELL"
    · rw [if_pos hs] at h
      exact Or.inr ⟨hs, (Except.ok.inj h).symm⟩
    · rw [if_neg hs] at h
      exact absurd h (by simp)

theorem action_from_str_freeshare_elim {bs f : String} {a : ActionType}
    (h : action_from_str "FREESHARE_ORDER" bs f = .ok a) :
    (bs = "BUY" ∧ a = .BUY) ∨ (bs = "SELL" ∧ a = .SELL) := by
  unfold action_from_str at h
  rw [if_neg (by decide), if_neg (by decide), if_neg (by decide),
    if_pos (by decide)] at h
  by_cases hb : bs = "BUY"
  · rw [if_pos hb] at h
    exact Or.inl ⟨hb, (Except.ok.inj h).symm⟩
  · rw [if_neg hb] at h
    by_cases hs : bs = "SELL"
    · rw [if_pos hs] at h
      exact Or.inr ⟨hs, (Except.ok.inj h).symm⟩
    · rw [if_neg hs] at h
      exact absurd h (by simp)

/-- Every failure of `parse_date` is a `ValueError`. -/
theorem parse_date_error_kind {s : String} {e : PyError}
    (h : parse_date s = .error e) : ∃ msg, e = .ValueError msg := by
  unfold parse_date at h
  split at h
  · exact absurd h (by simp)
  · exact ⟨_, (Except.error.inj h).symm⟩

/-- Whether an exception is the repository's `ParsingError`. -/
def isParsingError : PyError → Bool
  | .ParsingError _ _ => true
  | _ => false

/-- A well-formed header (a subset of `COLUMNS`) used by the concrete
instances below. -/
def ftHeader : List String :=
  ["Title", "Type", "Timestamp", "Account Currency", "Total Amount",
   "Buy / Sell", "Ticker", "Quantity", "Price per Share",
   "Instrument Currency", "Total Shares Amount", "FX Rate"]

/-- C1: on a row whose timestamp the date format rejects (and that is
otherwise fine), row construction fails with the `ValueError` of
`datetime.strptime`, propagated unwrapped — not with `ParsingError` as
the claim states. -/
theorem C1_malformed_timestamp_fails_with_valueerror
    (header row_raw : List String) (filename : String)
    (pre : ActionType × Option String × Option ℚ × Option ℚ × ℚ × String)
    (ts : String) (e : PyError)
    (hpre : freetrade_predate header row_raw filename = .ok pre)
    (hts : dictGet (rowOf header row_raw) "Timestamp" = .ok ts)
    (hdate : parse_date ts = .error e) :
    freetradeTransaction header row_raw filename = .error e ∧
    ∃ msg, e = .ValueError msg := by
  obtain ⟨action, symbol, quantity, price, amount, currency⟩ := pre
  constructor
  · unfold freetradeTransaction
    rw [hpre]
    simp only [exc_ok_bind]
    rw [hts]
    simp only [exc_ok_bind]
    rw [hdate]
    simp only [exc_err_bind]
  · exact parse_date_error_kind hdate

/-- C1 witness: a concrete TOP_UP row with timestamp `garbage`. -/
theorem C1_malformed_timestamp_witness :
    freetradeTransaction ftHeader
      ["Top up", "TOP_UP", "garbage", "GBP", "5", "", "", "", "", "", "", ""]
      "transactions.csv" =
      .error (.ValueError
        "time data garbage does not match format %Y-%m-%dT%H:%M:%S.%f%z") ∧
    ∃ msg, (PyError.ValueError
      "time data garbage does not match format %Y-%m-%dT%H:%M:%S.%f%z") =
      .ValueError msg :=
  C1_malformed_timestamp_fails_with_valueerror ftHeader
    ["Top up", "TOP_UP", "garbage", "GBP", "5", "", "", "", "", "", "", ""]
    "transactions.csv" (.TRANSFER, none, none, none, 5, "GBP") "garbage" _
    (by with_unfolding_all rfl) (by rfl) (by rfl)

/-- C1 counterexample: the failure on a malformed timestamp is a
`ValueError`, not the distinguished `ParsingError` the claim names. -/
theorem C1_not_parsingerror_counterexample :
    freetradeTransaction ftHeader
      ["Top up", "TOP_UP", "2024-01-02", "GBP", "5", "", "", "", "", "", "", ""]
      "transactions.csv" =
      .error (.ValueError
        "time data 2024-01-02 does not match format %Y-%m-%dT%H:%M:%S.%f%z") ∧
    isParsingError (.ValueError
      "time data 2024-01-02 does not match format %Y-%m-%dT%H:%M:%S.%f%z") = false :=
  ⟨by with_unfolding_all rfl, rfl⟩

/-- Two successes of the same computation carry the same value. -/
theorem exc_ok_det {α : Type} {x : Except PyError α} {a b : α}
    (h1 : x = .ok a) (h2 : x = .ok b) : a = b :=
  Except.ok.inj (h1.symm.trans h2)

/-- C2 (amended): on a TRANSFER/INTEREST row (type codes TOP_UP,
WITHDRAWAL, INTEREST_FROM_CASH) the transaction has no quantity and no
price, its amount is the raw Total Amount negated exactly for
WITHDRAWAL, and its symbol is `None` exactly when the Ticker cell is
empty — a nonempty Ticker is kept even on such rows, contrary to the
claim's `symbol=None regardless of the Ticker column`. -/
theorem C2_transfer_interest_fields
    (header row_raw : List String) (filename : String) (t : BrokerTransaction)
    (type ticker : String)
    (ht : freetradeTransaction header row_raw filename = .ok t)
    (htype : dictGet (rowOf header row_raw) "Type" = .ok type)
    (htick : dictGet (rowOf header row_raw) "Ticker" = .ok ticker)
    (hmem : type = "TOP_UP" ∨ type = "WITHDRAWAL" ∨ type = "INTEREST_FROM_CASH") :
    t.quantity = none ∧ t.price = none ∧
    t.symbol = (if ticker = "" then none else some ticker) ∧
    ∀ amts a, dictGet (rowOf header row_raw) "Total Amount" = .ok amts →
      pyDecimal amts = .ok a →
      t.amount = (if type = "WITHDRAWAL" then -a else a) := by
  obtain ⟨action, sym, q, p, am, c, tss, date, title, hpre, htss, hdate, htitle, hteq⟩ :=
    freetradeTransaction_elim ht
  obtain ⟨type0, bs0, ticker0, q0, p0, a0, c0, htype0, hbs0, hact0, htick0,
    hsym, hacct, hnums, hq, hp, ham, hc⟩ := freetrade_predate_elim hpre
  have htyeq : type0 = type := exc_ok_det htype0 htype
  subst htyeq
  have htkeq : ticker0 = ticker := exc_ok_det htick0 htick
  subst htkeq
  subst hteq
  rcases hmem with rfl | rfl | rfl
  · -- TOP_UP
    have hactv : action = .TRANSFER :=
      (Except.ok.inj ((action_from_str_topup bs0 filename).symm.trans hact0)).symm
    subst hactv
    obtain ⟨amts0, hamts0, ha00, hq0, hp0, hc0⟩ :=
      compute_numbers_transfer_elim (Or.inl rfl) hnums
    rw [if_neg (by decide)] at hp
    rw [if_neg (by decide), if_neg (by decide)] at ham
    refine ⟨hq.trans hq0, hp.trans hp0, hsym, ?_⟩
    intro amts a hamts ha
    have h1 : amts0 = amts := exc_ok_det hamts0 hamts
    subst h1
    have h2 : a0 = a := exc_ok_det ha00 ha
    subst h2
    rw [if_neg (by decide)]
    exact ham
  · -- WITHDRAWAL
    have hactv : action = .TRANSFER :=
      (Except.ok.inj ((action_from_str_withdrawal bs0 filename).symm.trans hact0)).symm
    subst hactv
    obtain ⟨amts0, hamts0, ha00, hq0, hp0, hc0⟩ :=
      compute_numbers_transfer_elim (Or.inl rfl) hnums
    rw [if_neg (by decide)] at hp
    rw [if_pos (Or.inr rfl), if_neg (by decide)] at ham
    refine ⟨hq.trans hq0, hp.trans hp0, hsym, ?_⟩
    intro amts a hamts ha
    have h1 : amts0 = amts := exc_ok_det hamts0 hamts
    subst h1
    have h2 : a0 = a := exc_ok_det ha00 ha
    subst h2
    rw [if_pos rfl]
    exact ham
  · -- INTEREST_FROM_CASH
    have hactv : action = .INTEREST :=
      (Except.ok.inj ((action_from_str_interest bs0 filename).symm.trans hact0)).symm
    subst hactv
    obtain ⟨amts0, hamts0, ha00, hq0, hp0, hc0⟩ :=
      compute_numbers_transfer_elim (Or.inr rfl) hnums
    rw [if_neg (by decide)] at hp
    rw [if_neg (by decide), if_neg (by decide)] at ham
    refine ⟨hq.trans hq0, hp.trans hp0, hsym, ?_⟩
    intro amts a hamts ha
    have h1 : amts0 = amts := exc_ok_det hamts0 hamts
    subst h1
    have h2 : a0 = a := exc_ok_det ha00 ha
    subst h2
    rw [if_neg (by decide)]
    exact ham

/-- The WITHDRAWAL row used by the C2 witness. -/
def C2w_row : List String :=
  ["Withdraw", "WITHDRAWAL", "2023-05-01T10:20:30.500Z", "GBP", "7",
   "", "", "", "", "", "", ""]

/-- The transaction built from `C2w_row`. -/
def C2w_t : BrokerTransaction :=
  { date := ⟨2023, 5, 1⟩, action := .TRANSFER, symbol := none,
    description := "Withdraw ActionType.TRANSFER", quantity := none,
    price := none, fees := 0, amount := -7, currency := "GBP",
    broker := "Freetrade" }

/-- C2 witness: a concrete WITHDRAWAL row with Total Amount 7. -/
theorem C2_transfer_interest_witness :
    C2w_t.quantity = none ∧ C2w_t.price = none ∧
    C2w_t.symbol = (if "" = "" then none else some "") ∧
    ∀ amts a, dictGet (rowOf ftHeader C2w_row) "Total Amount" = .ok amts →
      pyDecimal amts = .ok a →
      C2w_t.amount = (if "WITHDRAWAL" = "WITHDRAWAL" then -a else a) :=
  C2_transfer_interest_fields ftHeader C2w_row "transactions.csv" C2w_t
    "WITHDRAWAL" "" (by with_unfolding_all rfl) (by rfl) (by rfl)
    (Or.inr (Or.inl rfl))

/-- C2 counterexample: a TOP_UP row with Ticker `ABC` keeps the symbol
`ABC`, while the claim says every TOP_UP row yields `symbol=None`. -/
theorem C2_topup_symbol_counterexample :
    freetradeTransaction ftHeader
      ["Top up", "TOP_UP", "2023-05-01T10:20:30.500Z", "GBP", "100",
       "", "ABC", "", "", "", "", ""] "transactions.csv" =
      .ok { date := ⟨2023, 5, 1⟩, action := .TRANSFER, symbol := some "ABC",
            description := "Top up ActionType.TRANSFER", quantity := none,
            price := none, fees := 0, amount := 100, currency := "GBP",
            broker := "Freetrade" } ∧
    (some "ABC" : Option String) ≠ none :=
  ⟨by with_unfolding_all rfl, by simp⟩

/-- C3 (amended): on an `ORDER`/`BUY` row the action is BUY and the
amount is the negation of the (FX-converted) raw Total Shares Amount;
hence `amount ≤ 0` whenever the raw amount is nonnegative and the FX
rate, when used, is positive.  (The claim's unconditional `amount ≤ 0`
fails for a negative raw amount.) -/
theorem C3_order_buy_amount
    (header row_raw : List String) (filename : String) (t : BrokerTransaction)
    (ht : freetradeTransaction header row_raw filename = .ok t)
    (htype : dictGet (rowOf header row_raw) "Type" = .ok "ORDER")
    (hbs : dictGet (rowOf header row_raw) "Buy / Sell" = .ok "BUY") :
    t.action = .BUY ∧
    ∀ amts a cur, dictGet (rowOf header row_raw) "Total Shares Amount" = .ok amts →
      pyDecimal amts = .ok a →
      dictGet (rowOf header row_raw) "Instrument Currency" = .ok cur →
      ((cur = "GBP" → t.amount = -a ∧ (0 ≤ a → t.amount ≤ 0)) ∧
       (cur ≠ "GBP" → ∀ fxs fx, dictGet (rowOf header row_raw) "FX Rate" = .ok fxs →
          pyDecimal fxs = .ok fx →
          t.amount = -(a / fx) ∧ (0 ≤ a → 0 < fx → t.amount ≤ 0))) := by
  obtain ⟨action, sym, q, p, am, c, tss, date, title, hpre, htss, hdate, htitle, hteq⟩ :=
    freetradeTransaction_elim ht
  obtain ⟨type0, bs0, ticker0, q0, p0, a0, c0, htype0, hbs0, hact0, htick0,
    hsym, hacct, hnums, hq, hp, ham, hc⟩ := freetrade_predate_elim hpre
  have htyeq : type0 = "ORDER" := exc_ok_det htype0 htype
  subst htyeq
  have hbseq : bs0 = "BUY" := exc_ok_det hbs0 hbs
  subst hbseq
  rcases action_from_str_order_elim hact0 with ⟨-, hA⟩ | ⟨hb, -⟩
  · subst hA
    obtain ⟨qs, q1, ps, p1, amts0, a1, cur0, hqs, hq1, hps, hp1, hamts0, ha1,
      hcur0, hqeq, hceq, hbranch⟩ :=
      compute_numbers_buy_sell_elim (Or.inr rfl) hnums
    rw [if_pos (Or.inl rfl), if_neg (by decide)] at ham
    subst hteq
    refine ⟨rfl, ?_⟩
    intro amts a cur hamts ha hcur
    have e1 : amts0 = amts := exc_ok_det hamts0 hamts
    subst e1
    have e2 : a1 = a := exc_ok_det ha1 ha
    subst e2
    have e3 : cur0 = cur := exc_ok_det hcur0 hcur
    subst e3
    constructor
    · intro hgbp
      rcases hbranch with ⟨-, -, haeq⟩ | ⟨hcn, -⟩
      · subst haeq
        refine ⟨ham, fun hle => ?_⟩
        rw [ham]
        exact neg_nonpos.mpr hle
      · exact absurd hgbp hcn
    · intro hng fxs fx hfxs hfx
      rcases hbranch with ⟨hcg, -, -⟩ | ⟨-, fxs0, fx0, hfxs0, hfx0, hfxnz, -, haeq⟩
      · exact absurd hcg hng
      · have e4 : fxs0 = fxs := exc_ok_det hfxs0 hfxs
        subst e4
        have e5 : fx0 = fx := exc_ok_det hfx0 hfx
        subst e5
        subst haeq
        refine ⟨ham, fun hle hpos => ?_⟩
        rw [ham]
        exact neg_nonpos.mpr (div_nonneg hle (le_of_lt hpos))
  · exact absurd hb (by decide)

/-- The ORDER/BUY row used by the C3 witness. -/
def C3w_row : List String :=
  ["Buy", "ORDER", "2023-05-01T10:20:30.500Z", "GBP", "",
   "BUY", "FOO", "2", "3", "GBP", "5", ""]

/-- The transaction built from `C3w_row`. -/
def C3w_t : BrokerTransaction :=
  { date := ⟨2023, 5, 1⟩, action := .BUY, symbol := some "FOO",
    description := "Buy ActionType.BUY", quantity := some 2,
    price := some 3, fees := 0, amount := -5, currency := "GBP",
    broker := "Freetrade" }

/-- C3 witness: a concrete GBP ORDER/BUY row with raw amount 5. -/
theorem C3_order_buy_witness :
    C3w_t.action = .BUY ∧
    ((("GBP" : String) = "GBP" → C3w_t.amount = -5 ∧ ((0 : ℚ) ≤ 5 → C3w_t.amount ≤ 0)) ∧
     (("GBP" : String) ≠ "GBP" → ∀ fxs fx,
        dictGet (rowOf ftHeader C3w_row) "FX Rate" = .ok fxs →
        pyDecimal fxs = .ok fx →
        C3w_t.amount = -(5 / fx) ∧ ((0 : ℚ) ≤ 5 → 0 < fx → C3w_t.amount ≤ 0))) :=
  ⟨(C3_order_buy_amount ftHeader C3w_row "transactions.csv" C3w_t
      (by with_unfolding_all rfl) (by rfl) (by rfl)).1,
   (C3_order_buy_amount ftHeader C3w_row "transactions.csv" C3w_t
      (by with_unfolding_all rfl) (by rfl) (by rfl)).2
     "5" 5 "GBP" (by rfl) (by with_unfolding_all rfl) (by rfl)⟩

/-- C3 counterexample: an ORDER/BUY row whose raw Total Shares Amount is
`-5` parses to a transaction with amount `5 > 0`, refuting the claim's
unconditional `amount ≤ 0`. -/
theorem C3_negative_amount_counterexample :
    freetradeTransaction ftHeader
      ["Buy", "ORDER", "2023-05-01T10:20:30.500Z", "GBP", "",
       "BUY", "FOO", "2", "3", "GBP", "-5", ""] "transactions.csv" =
      .ok { date := ⟨2023, 5, 1⟩, action := .BUY, symbol := some "FOO",
            description := "Buy ActionType.BUY", quantity := some 2,
            price := some 3, fees := 0, amount := 5, currency := "GBP",
            broker := "Freetrade" } ∧
    ¬((5 : ℚ) ≤ 0) :=
  ⟨by with_unfolding_all rfl, by norm_num⟩

/-- C5: on a FREESHARE_ORDER row the constructed transaction always has
price 0 and amount 0, whatever the raw price and amount cells held. -/
theorem C5_freeshare_zero
    (header row_raw : List String) (filename : String) (t : BrokerTransaction)
    (ht : freetradeTransaction header row_raw filename = .ok t)
    (htype : dictGet (rowOf header row_raw) "Type" = .ok "FREESHARE_ORDER") :
    t.price = some 0 ∧ t.amount = 0 := by
  obtain ⟨action, sym, q, p, am, c, tss, date, title, hpre, htss, hdate, htitle, hteq⟩ :=
    freetradeTransaction_elim ht
  obtain ⟨type0, bs0, ticker0, q0, p0, a0, c0, htype0, hbs0, hact0, htick0,
    hsym, hacct, hnums, hq, hp, ham, hc⟩ := freetrade_predate_elim hpre
  have htyeq : type0 = "FREESHARE_ORDER" := exc_ok_det htype0 htype
  subst htyeq
  rw [if_pos rfl] at hp
  rw [if_pos rfl] at ham
  have hamz : am = 0 := by
    rw [ham]
    split
    · exact neg_zero
    · rfl
  subst hteq
  exact ⟨hp, hamz⟩

/-- The FREESHARE_ORDER row used by the C5 witness. -/
def C5w_row : List String :=
  ["Free share", "FREESHARE_ORDER", "2023-05-01T10:20:30.500Z", "GBP", "",
   "BUY", "FOO", "1", "3.5", "GBP", "7", ""]

/-- The transaction built from `C5w_row`. -/
def C5w_t : BrokerTransaction :=
  { date := ⟨2023, 5, 1⟩, action := .BUY, symbol := some "FOO",
    description := "Free share ActionType.BUY", quantity := some 1,
    price := some 0, fees := 0, amount := 0, currency := "GBP",
    broker := "Freetrade" }

/-- C5 witness: a concrete free-share row with nonzero raw price and
amount cells. -/
theorem C5_freeshare_zero_witness : C5w_t.price = some 0 ∧ C5w_t.amount = 0 :=
  C5_freeshare_zero ftHeader C5w_row "transactions.csv" C5w_t
    (by with_unfolding_all rfl) (by rfl)

/-- C4 (amended): on a BUY/SELL row whose Instrument Currency is not
GBP, the resulting currency is GBP and, for an ORDER row,
`price_out = price_in / fx_rate`, while the amount is the FX-converted
raw amount negated exactly for BUY (`amount_out = amount_in / fx_rate`
holds only for SELL); a FREESHARE_ORDER row instead forces price 0 and
amount 0. -/
theorem C4_fx_conversion
    (header row_raw : List String) (filename : String) (t : BrokerTransaction)
    (type bs cur : String)
    (ht : freetradeTransaction header row_raw filename = .ok t)
    (htype : dictGet (rowOf header row_raw) "Type" = .ok type)
    (hord : type = "ORDER" ∨ type = "FREESHARE_ORDER")
    (hbs : dictGet (rowOf header row_raw) "Buy / Sell" = .ok bs)
    (hcur : dictGet (rowOf header row_raw) "Instrument Currency" = .ok cur)
    (hne : cur ≠ "GBP") :
    t.currency = "GBP" ∧
    ∀ ps p amts a fxs fx,
      dictGet (rowOf header row_raw) "Price per Share" = .ok ps →
      pyDecimal ps = .ok p →
      dictGet (rowOf header row_raw) "Total Shares Amount" = .ok amts →
      pyDecimal amts = .ok a →
      dictGet (rowOf header row_raw) "FX Rate" = .ok fxs →
      pyDecimal fxs = .ok fx →
      ((type = "ORDER" →
          t.price = some (p / fx) ∧
          t.amount = (if bs = "BUY" then -(a / fx) else a / fx)) ∧
       (type = "FREESHARE_ORDER" → t.price = some 0 ∧ t.amount = 0)) := by
  obtain ⟨action, sym, q, p0v, am, c, tss, date, title, hpre, htss, hdate, htitle, hteq⟩ :=
    freetradeTransaction_elim ht
  obtain ⟨type0, bs0, ticker0, q0, p0, a0, c0, htype0, hbs0, hact0, htick0,
    hsym, hacct, hnums, hq, hp, ham, hc⟩ := freetrade_predate_elim hpre
  have htyeq : type0 = type := exc_ok_det htype0 htype
  subst htyeq
  have hbseq : bs0 = bs := exc_ok_det hbs0 hbs
  subst hbseq
  subst hteq
  have hact1 : (bs0 = "BUY" ∧ action = .BUY) ∨ (bs0 = "SELL" ∧ action = .SELL) := by
    rcases hord with rfl | rfl
    · exact action_from_str_order_elim hact0
    · exact action_from_str_freeshare_elim hact0
  have hbuysell : action = .SELL ∨ action = .BUY := by
    rcases hact1 with ⟨-, h⟩ | ⟨-, h⟩
    · exact Or.inr h
    · exact Or.inl h
  obtain ⟨qs, q1, ps0, p1, amts0, a1, cur0, hqs, hq1, hps0, hp1, hamts0, ha1,
    hcur0, hqeq, hceq, hbranch⟩ := compute_numbers_buy_sell_elim hbuysell hnums
  have e3 : cur0 = cur := exc_ok_det hcur0 hcur
  subst e3
  refine ⟨hc.trans hceq, ?_⟩
  intro ps p amts a fxs fx hps hp' hamts ha hfxs hfx
  have e1 : ps0 = ps := exc_ok_det hps0 hps
  subst e1
  have e2 : p1 = p := exc_ok_det hp1 hp'
  subst e2
  have e4 : amts0 = amts := exc_ok_det hamts0 hamts
  subst e4
  have e5 : a1 = a := exc_ok_det ha1 ha
  subst e5
  rcases hbranch with ⟨hcg, -, -⟩ | ⟨-, fxs0, fx0, hfxs0, hfx0, hfxnz, hpeq, haeq⟩
  · exact absurd hcg hne
  · have e6 : fxs0 = fxs := exc_ok_det hfxs0 hfxs
    subst e6
    have e7 : fx0 = fx := exc_ok_det hfx0 hfx
    subst e7
    subst hpeq
    subst haeq
    constructor
    · -- type = "ORDER"
      rintro rfl
      rw [if_neg (by decide)] at hp
      constructor
      · exact hp
      · rcases hact1 with ⟨hbsv, hActv⟩ | ⟨hbsv, hActv⟩ <;> subst hbsv <;> subst hActv
        · rw [if_pos (Or.inl rfl), if_neg (by decide)] at ham
          rw [if_pos rfl]
          exact ham
        · rw [if_neg (by decide), if_neg (by decide)] at ham
          rw [if_neg (by decide)]
          exact ham
    · -- type = "FREESHARE_ORDER"
      rintro rfl
      rw [if_pos rfl] at hp
      rw [if_pos rfl] at ham
      refine ⟨hp, ?_⟩
      rw [ham]
      split
      · exact neg_zero
      · rfl

/-- The USD ORDER/BUY row used by the C4 witness and counterexample. -/
def C4w_row : List String :=
  ["Buy", "ORDER", "2023-05-01T10:20:30.500Z", "GBP", "",
   "BUY", "FOO", "2", "4", "USD", "10", "2"]

/-- The transaction built from `C4w_row`: price 4/2 = 2, amount
-(10/2) = -5. -/
def C4w_t : BrokerTransaction :=
  { date := ⟨2023, 5, 1⟩, action := .BUY, symbol := some "FOO",
    description := "Buy ActionType.BUY", quantity := some 2,
    price := some 2, fees := 0, amount := -5, currency := "GBP",
    broker := "Freetrade" }

/-- C4 witness: the concrete USD ORDER/BUY row with fx 2. -/
theorem C4_fx_conversion_witness :
    C4w_t.currency = "GBP" ∧
    ((("ORDER" : String) = "ORDER" →
        C4w_t.price = some (4 / 2 : ℚ) ∧
        C4w_t.amount = (if ("BUY" : String) = "BUY" then -((10 : ℚ) / 2) else (10 : ℚ) / 2)) ∧
     (("ORDER" : String) = "FREESHARE_ORDER" → C4w_t.price = some 0 ∧ C4w_t.amount = 0)) :=
  ⟨(C4_fx_conversion ftHeader C4w_row "transactions.csv" C4w_t "ORDER" "BUY" "USD"
      (by with_unfolding_all rfl) (by rfl) (Or.inl rfl) (by rfl) (by rfl) (by decide)).1,
   (C4_fx_conversion ftHeader C4w_row "transactions.csv" C4w_t "ORDER" "BUY" "USD"
      (by with_unfolding_all rfl) (by rfl) (Or.inl rfl) (by rfl) (by rfl) (by decide)).2
     "4" 4 "10" 10 "2" 2 (by rfl) (by with_unfolding_all rfl) (by rfl)
     (by with_unfolding_all rfl) (by rfl) (by with_unfolding_all rfl)⟩

/-- C4 counterexample: on the USD BUY row with raw amount 10 and fx 2
the resulting amount is `-5`, not `amount_in / fx_rate = 5` as the
claim states for every BUY/SELL row. -/
theorem C4_buy_amount_sign_counterexample :
    freetradeTransaction ftHeader C4w_row "transactions.csv" = .ok C4w_t ∧
    C4w_t.amount ≠ (10 : ℚ) / 2 :=
  ⟨by with_unfolding_all rfl, by norm_num [C4w_t]⟩

/-! ### Stock-split lemmas -/

/-- With the truthiness guard, an optional quantity is divided exactly
as `Option.map` divides it: `None` stays `None` and zero divided is
zero. -/
theorem truthy_div (x : Option ℚ) (k : ℚ) :
    (if pyTruthy x then x.map (fun q => q / k) else x) = x.map (fun q => q / k) := by
  cases x with
  | none => rfl
  | some q =>
    by_cases hq : q = 0
    · subst hq
      simp [pyTruthy, zero_div]
    · simp [pyTruthy, hq]

/-- Same for the price multiplication. -/
theorem truthy_mul (x : Option ℚ) (k : ℚ) :
    (if pyTruthy x then x.map (fun p => p * k) else x) = x.map (fun p => p * k) := by
  cases x with
  | none => rfl
  | some q =>
    by_cases hq : q = 0
    · subst hq
      simp [pyTruthy, zero_mul]
    · simp [pyTruthy, hq]

/-- C6: the split adjuster rewrites a transaction exactly when some
split record matches (symbol equal, action SELL, split date strictly
before the transaction date): then the quantity is divided by the
factor and the price multiplied by it; when no record matches — in
particular for non-SELL transactions and dates on or before the split
date — the transaction is unchanged.  Concretely, a TSLA SELL dated
2022-09-01 with quantity 9 and price 10 becomes quantity 3, price 30. -/
theorem C6_stock_split_adjuster :
    (∀ t : BrokerTransaction,
      (∀ s ∈ STOCK_SPLIT_INFO, ¬splitApplies t s) → handleStockSplit t = t) ∧
    (∀ t : BrokerTransaction, ∀ s ∈ STOCK_SPLIT_INFO, splitApplies t s →
      handleStockSplit t =
        { t with quantity := t.quantity.map (fun q => q / (s.factor : ℚ)),
                 price := t.price.map (fun p => p * (s.factor : ℚ)) }) ∧
    handleStockSplit
      { date := ⟨2022, 9, 1⟩, action := .SELL, symbol := some "TSLA",
        description := "Sell TSLA", quantity := some 9, price := some 10,
        fees := 0, amount := 90, currency := "GBP", broker := "Freetrade" } =
      { date := ⟨2022, 9, 1⟩, action := .SELL, symbol := some "TSLA",
        description := "Sell TSLA", quantity := some 3, price := some 30,
        fees := 0, amount := 90, currency := "GBP", broker := "Freetrade" } := by
  refine ⟨?_, ?_, ?_⟩
  · intro t h
    have h1 := h ⟨"GOOGL", ⟨2022, 7, 18⟩, 20⟩ (by simp [STOCK_SPLIT_INFO])
    have h2 := h ⟨"TSLA", ⟨2022, 8, 25⟩, 3⟩ (by simp [STOCK_SPLIT_INFO])
    have h3 := h ⟨"NDAQ", ⟨2022, 8, 29⟩, 3⟩ (by simp [STOCK_SPLIT_INFO])
    unfold handleStockSplit STOCK_SPLIT_INFO
    simp only [List.foldl]
    rw [if_neg h1, if_neg h2, if_neg h3]
  · intro t s hs happ
    have hsmem : s = (⟨"GOOGL", ⟨2022, 7, 18⟩, 20⟩ : StockSplit) ∨
        s = (⟨"TSLA", ⟨2022, 8, 25⟩, 3⟩ : StockSplit) ∨
        s = (⟨"NDAQ", ⟨2022, 8, 29⟩, 3⟩ : StockSplit) := by
      simpa [STOCK_SPLIT_INFO] using hs
    rcases hsmem with rfl | rfl | rfl
    · -- GOOGL
      have hn2 : ¬splitApplies
          { t with quantity := if pyTruthy t.quantity then t.quantity.map (fun q => q / ((20 : ℕ) : ℚ)) else t.quantity,
                   price := if pyTruthy t.price then t.price.map (fun p => p * ((20 : ℕ) : ℚ)) else t.price }
          ⟨"TSLA", ⟨2022, 8, 25⟩, 3⟩ := by
        intro hc
        have := happ.1.symm.trans hc.1
        simp at this
      have hn3 : ¬splitApplies
          { t with quantity := if pyTruthy t.quantity then t.quantity.map (fun q => q / ((20 : ℕ) : ℚ)) else t.quantity,
                   price := if pyTruthy t.price then t.price.map (fun p => p * ((20 : ℕ) : ℚ)) else t.price }
          ⟨"NDAQ", ⟨2022, 8, 29⟩, 3⟩ := by
        intro hc
        have := happ.1.symm.trans hc.1
        simp at this
      unfold handleStockSplit STOCK_SPLIT_INFO
      simp only [List.foldl]
      rw [if_pos happ, if_neg hn2, if_neg hn3, truthy_div, truthy_mul]
    · -- TSLA
      have hn1 : ¬splitApplies t ⟨"GOOGL", ⟨2022, 7, 18⟩, 20⟩ := by
        intro hc
        have := happ.1.symm.trans hc.1
        simp at this
      have hn3 : ¬splitApplies
          { t with quantity := if pyTruthy t.quantity then t.quantity.map (fun q => q / ((3 : ℕ) : ℚ)) else t.quantity,
                   price := if pyTruthy t.price then t.price.map (fun p => p * ((3 : ℕ) : ℚ)) else t.price }
          ⟨"NDAQ", ⟨2022, 8, 29⟩, 3⟩ := by
        intro hc
        have := happ.1.symm.trans hc.1
        simp at this
      unfold handleStockSplit STOCK_SPLIT_INFO
      simp only [List.foldl]
      rw [if_neg hn1, if_pos happ, if_neg hn3, truthy_div, truthy_mul]
    · -- NDAQ
      have hn1 : ¬splitApplies t ⟨"GOOGL", ⟨2022, 7, 18⟩, 20⟩ := by
        intro hc
        have := happ.1.symm.trans hc.1
        simp at this
      have hn2 : ¬splitApplies t ⟨"TSLA", ⟨2022, 8, 25⟩, 3⟩ := by
        intro hc
        have := happ.1.symm.trans hc.1
        simp at this
      unfold handleStockSplit STOCK_SPLIT_INFO
      simp only [List.foldl]
      rw [if_neg hn1, if_neg hn2, if_pos happ, truthy_div, truthy_mul]
  · with_unfolding_all rfl

/-- A TSLA SELL after the split date, for the C6 witness. -/
def C6w_t : BrokerTransaction :=
  { date := ⟨2023, 1, 15⟩, action := .SELL, symbol := some "TSLA",
    description := "Sell TSLA", quantity := some 6, price := some 20,
    fees := 0, amount := 120, currency := "GBP", broker := "Freetrade" }

/-- C6 witness: the general clause applied to a concrete matching SELL. -/
theorem C6_stock_split_witness :
    handleStockSplit C6w_t =
      { C6w_t with quantity := C6w_t.quantity.map (fun q => q / ((3 : ℕ) : ℚ)),
                   price := C6w_t.price.map (fun p => p * ((3 : ℕ) : ℚ)) } :=
  C6_stock_split_adjuster.2.1 C6w_t ⟨"TSLA", ⟨2022, 8, 25⟩, 3⟩
    (by simp [STOCK_SPLIT_INFO]) ⟨rfl, rfl, by decide⟩

/-! ### Reader lemmas -/

/-- `parseRows` preserves length on success. -/
theorem parseRows_ok_length {header : List String} {name : String} :
    ∀ {l : List (List String)} {v : List BrokerTransaction},
      parseRows header name l = .ok v → v.length = l.length := by
  intro l
  induction l with
  | nil =>
    intro v h
    simp only [parseRows, Except.ok.injEq] at h
    subst h
    rfl
  | cons a l ih =>
    intro v h
    unfold parseRows at h
    obtain ⟨t, ht, h⟩ := exc_bind_ok h
    obtain ⟨ts, hts, h⟩ := exc_bind_ok h
    simp only [exc_pure, Except.ok.injEq] at h
    subst h
    simp [ih hts]

/-- Splitting `parseRows` over an append. -/
theorem parseRows_append {header : List String} {name : String} :
    ∀ {l₁ l₂ : List (List String)} {v : List BrokerTransaction},
      parseRows header name (l₁ ++ l₂) = .ok v →
      ∃ v₁ v₂, parseRows header name l₁ = .ok v₁ ∧
        parseRows header name l₂ = .ok v₂ ∧ v = v₁ ++ v₂ := by
  intro l₁
  induction l₁ with
  | nil =>
    intro l₂ v h
    exact ⟨[], v, rfl, h, rfl⟩
  | cons a l₁ ih =>
    intro l₂ v h
    rw [List.cons_append] at h
    unfold parseRows at h
    obtain ⟨t, ht, h⟩ := exc_bind_ok h
    obtain ⟨ts, hts, h⟩ := exc_bind_ok h
    simp only [exc_pure, Except.ok.injEq] at h
    subst h
    obtain ⟨v₁, v₂, hv₁, hv₂, rfl⟩ := ih hts
    refine ⟨t :: v₁, v₂, ?_, hv₂, rfl⟩
    unfold parseRows
    rw [ht]
    simp only [exc_ok_bind]
    rw [hv₁]
    simp only [exc_ok_bind, exc_pure]

/-- Parsing the reversed rows succeeds exactly with the reversed
result. -/
theorem parseRows_reverse {header : List String} {name : String} :
    ∀ {l : List (List String)} {v : List BrokerTransaction},
      parseRows header name l.reverse = .ok v →
      parseRows header name l = .ok v.reverse := by
  intro l
  induction l with
  | nil =>
    intro v h
    simp only [List.reverse_nil, parseRows, Except.ok.injEq] at h
    subst h
    rfl
  | cons a l ih =>
    intro v h
    rw [List.reverse_cons] at h
    obtain ⟨v₁, v₂, hv₁, hv₂, rfl⟩ := parseRows_append h
    unfold parseRows at hv₂
    obtain ⟨t, ht, h2⟩ := exc_bind_ok hv₂
    obtain ⟨ts2, hts2, h2⟩ := exc_bind_ok h2
    simp only [parseRows, Except.ok.injEq] at hts2
    subst hts2
    simp only [exc_pure, Except.ok.injEq] at h2
    subst h2
    rw [List.reverse_append]
    simp only [List.reverse_cons, List.reverse_nil, List.nil_append,
      List.singleton_append]
    unfold parseRows
    rw [ht]
    simp only [exc_ok_bind]
    rw [ih hv₁]
    simp only [exc_ok_bind, exc_pure]

/-- C7: on a file whose header validates and whose N data rows all
parse, the reader returns exactly N transactions, and parsing the rows
in input order yields the reader's output reversed (the reader returns
reverse-of-input order). -/
theorem C7_reader_reverse
    (header : List String) (rows : List (List String)) (name : String)
    (ts : List BrokerTransaction) (warns : List String)
    (h : read_freetrade_transactions (some (header :: rows)) name = .ok (ts, warns)) :
    ts.length = rows.length ∧ parseRows header name rows = .ok ts.reverse := by
  unfold read_freetrade_transactions at h
  obtain ⟨u, hval, h⟩ := exc_bind_ok h
  obtain ⟨txs, hmap, h⟩ := exc_bind_ok h
  simp only [exc_pure, Except.ok.injEq, Prod.mk.injEq] at h
  obtain ⟨h1, -⟩ := h
  subst h1
  refine ⟨?_, parseRows_reverse hmap⟩
  rw [parseRows_ok_length hmap, List.length_reverse]

/-- First data row of the C7 witness file. -/
def C7w_r1 : List String :=
  ["r1", "TOP_UP", "2023-05-01T10:20:30.500Z", "GBP", "1",
   "", "", "", "", "", "", ""]

/-- Second data row of the C7 witness file. -/
def C7w_r2 : List String :=
  ["r2", "TOP_UP", "2023-05-02T10:20:30.500Z", "GBP", "2",
   "", "", "", "", "", "", ""]

/-- Transaction of `C7w_r1`. -/
def C7w_t1 : BrokerTransaction :=
  { date := ⟨2023, 5, 1⟩, action := .TRANSFER, symbol := none,
    description := "r1 ActionType.TRANSFER", quantity := none, price := none,
    fees := 0, amount := 1, currency := "GBP", broker := "Freetrade" }

/-- Transaction of `C7w_r2`. -/
def C7w_t2 : BrokerTransaction :=
  { date := ⟨2023, 5, 2⟩, action := .TRANSFER, symbol := none,
    description := "r2 ActionType.TRANSFER", quantity := none, price := none,
    fees := 0, amount := 2, currency := "GBP", broker := "Freetrade" }

/-- C7 witness: a concrete two-row file comes back reversed. -/
theorem C7_reader_reverse_witness :
    ([C7w_t2, C7w_t1] : List BrokerTransaction).length =
      ([C7w_r1, C7w_r2] : List (List String)).length ∧
    parseRows ftHeader "f.csv" [C7w_r1, C7w_r2] =
      .ok ([C7w_t2, C7w_t1] : List BrokerTransaction).reverse :=
  C7_reader_reverse ftHeader [C7w_r1, C7w_r2] "f.csv" [C7w_t2, C7w_t1] []
    (by with_unfolding_all rfl)

/-- C8: a missing input file (the `FileNotFoundError` path) is caught:
the reader returns the empty transaction list, with only a printed
warning, and no exception escapes. -/
theorem C8_missing_file_soft_fail (transactions_file : String) :
    read_freetrade_transactions none transactions_file =
      .ok ([], ["WARNING: Couldn't locate Freetrade transactions file(" ++
        transactions_file ++ ")"]) := rfl

/-- C9: an existing file with zero lines makes `lines[0]` raise an
uncaught `IndexError`: the reader neither returns an empty sequence nor
a `ParsingError`. -/
theorem C9_empty_file_indexerror (transactions_file : String) :
    read_freetrade_transactions (some []) transactions_file =
      .error (.IndexError "list index out of range") := rfl

/-- C10: header validation succeeds precisely when every entry belongs
to the 28-column allow-list; in particular the empty header, the fully
permuted header, a strict subset and a duplicated column all pass. -/
theorem C10_validate_header_membership :
    (∀ header filename, validate_header header filename = .ok () ↔
      ∀ c ∈ header, c ∈ COLUMNS) ∧
    validate_header [] "f.csv" = .ok () ∧
    validate_header COLUMNS.reverse "f.csv" = .ok () ∧
    validate_header ["Ticker", "Type"] "f.csv" = .ok () ∧
    validate_header ["Title", "Title"] "f.csv" = .ok () := by
  refine ⟨?_, by decide, by decide, by decide, by decide⟩
  intro header filename
  induction header with
  | nil => simp [validate_header]
  | cons a l ih =>
    unfold validate_header
    by_cases hmem : a ∈ COLUMNS
    · rw [if_pos hmem, ih]
      simp [hmem]
    · rw [if_neg hmem]
      exact iff_of_false (by simp)
        (fun h => hmem (h a (List.mem_cons_self a l)))

/-- C10 witness: the membership criterion applied to a concrete
two-column subset header. -/
theorem C10_validate_header_witness :
    validate_header ["Venue", "ISIN"] "g.csv" = .ok () :=
  (C10_validate_header_membership.1 ["Venue", "ISIN"] "g.csv").mpr (by decide)
